import Mathlib

/-!
Verification development for the EAIN agent decision engine.

This file gives a shallow embedding, in Lean, of the decision engine of the
repository (`src/metta/metta_shim.py`), of the provenance recorder
(`src/provenance/provenance.py`) and of the hashing helper
(`src/utils/helpers.py`), and proves properties of the embedded code.

Modelling conventions:
* Python scalar/collection values are modelled by the inductive type `Val`
  (`None`, numbers, strings, lists, dicts).  Python `float` and `int` values
  are both modelled as exact rationals `ℚ`; every numeric literal appearing in
  the source (0.95, 0.9, 0.8, 0.7, 0.6, 0.5, 0.2, thresholds, `pct / 100`,
  `max`, order comparisons) is exactly representable, so the rational model
  agrees with IEEE doubles on all values the engine manipulates.
* A Python dict is an association list with (assumed) distinct string keys.
* A raised exception is modelled by `Except.error ()`; code that cannot raise
  returns `Except.ok`.  The `try/except` blocks of the source become `match`
  on the `Except` value.
* `str.lower` / `str.strip` are modelled character-wise (`pyLower`,
  `pyStrip`); this covers the ASCII strings the engine works with.
* File writes, wall-clock timestamps and logging are I/O; they are passed in
  explicitly (`ts`, `writeOk`) or elided (log calls), as is standard for a
  shallow embedding of effectful code.
-/

namespace EAIN

/-- Model of a Python value: `None`, a number (int or float, modelled as an
exact rational), a string, a list, or a string-keyed dict. -/
inductive Val where
  | null
  | num (q : ℚ)
  | str (s : String)
  | list (xs : List Val)
  | dict (kvs : List (String × Val))

/-- A Python dict with string keys, as an association list (keys assumed
distinct, as they are in an actual `dict`). -/
abbrev Dict := List (String × Val)

/-- Key lookup in an association list (first match). -/
def pyLookup : Dict → String → Option Val
  | [], _ => none
  | (k, v) :: rest, key => if k = key then some v else pyLookup rest key

/-- `d.get(key)`: the stored value, or `None` when the key is absent. -/
def pyGet (d : Dict) (key : String) : Val := (pyLookup d key).getD .null

/-- `d.get(key, default)`: the stored value, or `default` when absent. -/
def pyGetD (d : Dict) (key : String) (dflt : Val) : Val := (pyLookup d key).getD dflt

/-- Python truthiness: `None`, `0`, `""`, `[]`, and the empty dict are falsy. -/
def truthy : Val → Bool
  | .null => false
  | .num q => decide (q ≠ 0)
  | .str s => decide (s ≠ "")
  | .list xs => !xs.isEmpty
  | .dict kvs => !kvs.isEmpty

/-- Python `a or b`: `a` when truthy, else `b`. -/
def pyOr (a b : Val) : Val := if truthy a then a else b

/-- Character-wise model of Python `str.lower` (ASCII letters). -/
def pyLower (s : String) : String := String.mk (s.data.map Char.toLower)

/-- Character-wise model of Python `str.strip` (no arguments): remove leading
and trailing whitespace. -/
def pyStrip (s : String) : String :=
  String.mk (((s.data.dropWhile Char.isWhitespace).reverse.dropWhile
    Char.isWhitespace).reverse)

/-- Numeric value of a list of decimal digit characters. -/
def digitsVal (cs : List Char) : ℕ := cs.foldl (fun a c => a * 10 + (c.toNat - 48)) 0

/-- Parse the mantissa part of a float literal: digits with an optional
fractional part, at least one digit in total. -/
def parseMantissa (cs : List Char) : Option ℚ :=
  let ip := cs.takeWhile Char.isDigit
  let rest := cs.drop ip.length
  match rest with
  | [] => if ip.isEmpty then none else some (digitsVal ip)
  | '.' :: fp =>
    if fp.all Char.isDigit && !(ip.isEmpty && fp.isEmpty) then
      some ((digitsVal ip : ℚ) + (digitsVal fp : ℚ) / 10 ^ fp.length)
    else none
  | _ => none

/-- Parse an exponent part (after `e`/`E`): an optional sign and digits. -/
def parseExp (cs : List Char) : Option ℤ :=
  match cs with
  | '+' :: r => if !r.isEmpty && r.all Char.isDigit then some (digitsVal r) else none
  | '-' :: r => if !r.isEmpty && r.all Char.isDigit then some (-(digitsVal r : ℤ)) else none
  | r => if !r.isEmpty && r.all Char.isDigit then some (digitsVal r) else none

/-- Model of Python `float(string)`: surrounding whitespace, an optional
sign, a decimal mantissa and an optional exponent.  (The special spellings
`inf`/`nan` and underscore separators are not modelled; no claim depends on
them.) -/
def parseFloat (s : String) : Option ℚ :=
  let t := (s.data.dropWhile Char.isWhitespace).reverse.dropWhile Char.isWhitespace
  let t := t.reverse
  let (sign, t) : ℚ × List Char :=
    match t with
    | '+' :: r => (1, r)
    | '-' :: r => (-1, r)
    | r => (1, r)
  let mant := t.takeWhile (fun c => !(c = 'e' || c = 'E'))
  let rest := t.drop mant.length
  match rest with
  | [] => (parseMantissa mant).map (fun m => sign * m)
  | _ :: ecs =>
    match parseMantissa mant, parseExp ecs with
    | some m, some e => some (sign * m * (10 : ℚ) ^ e)
    | _, _ => none

/-- Model of Python `float(x)` on a `Val`: numbers pass through, strings are
parsed, and `float(None)` / `float(list)` / `float(dict)` raise `TypeError`. -/
def pyFloat : Val → Except Unit ℚ
  | .num q => .ok q
  | .str s =>
    match parseFloat s with
    | some q => .ok q
    | none => .error ()
  | _ => .error ()

/-- Model of Python iteration over a value: lists yield their items, strings
yield their characters as 1-character strings, dicts yield their keys, and
iterating `None` or a number raises `TypeError`. -/
def pyIter : Val → Except Unit (List Val)
  | .list xs => .ok xs
  | .str s => .ok (s.data.map (fun c => .str (String.mk [c])))
  | .dict kvs => .ok (kvs.map (fun kv => .str kv.1))
  | _ => .error ()

/-- One node of the reason tree, as built by `evaluate_asset` from a rule
outcome dict: `{rule, outcome, evidence, note, confidence}`.  (The source
defaults `rule` to the function name and `confidence` to 0.5 when a key is
missing; every outcome dict the four rules return carries all keys, so the
embedded rules populate every field directly.) -/
structure ReasonNode where
  rule : String
  outcome : String
  evidence : Val
  note : String
  confidence : ℚ

/-- Result of one rule function: an exception, no outcome
(`{"outcome": None}`), or an outcome node. -/
abbrev RuleResult := Except Unit (Option ReasonNode)

/-- Render a rational for interpolation into a message string.  This models
Python decimal float formatting; no claim in this development depends on the
exact rendering of numbers inside `note` strings. -/
def qRepr (q : ℚ) : String :=
  if q.den = 1 then toString q.num else toString q.num ++ "/" ++ toString q.den

/-- `s.strip().lower()` applied to every entry of a list comprehension; a
non-string entry raises `AttributeError`. -/
def stripLowerEntries : List Val → Except Unit (List String)
  | [] => .ok []
  | .str s :: rest =>
    match stripLowerEntries rest with
    | .ok r => .ok (pyLower (pyStrip s) :: r)
    | .error e => .error e
  | _ :: _ => .error ()

/-- Rule 1, `_rule_exclude_industry`: reject (confidence 0.95) if the asset
sector, lowercased, equals some excluded entry after stripping and
lowercasing that entry. -/
def _rule_exclude_industry (investor asset : Dict) : RuleResult :=
  let excluded := pyOr (pyGet investor "excluded_industries") (.list [])
  let sector := pyOr (pyGetD asset "sector" (.str "")) (.str "")
  if !truthy excluded then .ok none
  else
    match sector with
    | .str sec =>
      match pyIter excluded with
      | .error e => .error e
      | .ok entries =>
        match stripLowerEntries entries with
        | .error e => .error e
        | .ok stripped =>
          if pyLower sec ∈ stripped then
            .ok (some
              { rule := "exclude_by_industry"
                outcome := "reject"
                evidence := .dict [("sector", sector), ("excluded", excluded)]
                note := "Asset sector \x27" ++ sec ++
                  "\x27 matches investor excluded industries"
                confidence := 95/100 })
          else .ok none
    | _ => .error ()

/-- Rule 2, `_rule_exclude_by_carbon`: reject (confidence 0.9) if the carbon
value (`carbon_emissions`, falling back to `carbon_score`) parses as a number
exceeding `investor.max_carbon_score`.  The `float(asset_carbon)` call is
inside a `try` (failure means no outcome); `float(max_carbon)` is not, so a
non-numeric max raises. -/
def _rule_exclude_by_carbon (investor asset : Dict) : RuleResult :=
  let max_carbon := pyGet investor "max_carbon_score"
  let asset_carbon := pyOr (pyGet asset "carbon_emissions") (pyGet asset "carbon_score")
  match max_carbon, asset_carbon with
  | .null, _ => .ok none
  | _, .null => .ok none
  | mc, acv =>
    match pyFloat acv with
    | .error _ => .ok none
    | .ok ac =>
      match pyFloat mc with
      | .error e => .error e
      | .ok mcq =>
        if ac > mcq then
          .ok (some
            { rule := "exclude_by_carbon"
              outcome := "reject"
              evidence := .dict [("carbon", .num ac), ("max_allowed", mc)]
              note := "Asset carbon " ++ qRepr ac ++ " > investor max " ++ qRepr mcq
              confidence := 9/10 })
        else .ok none

/-- Rule 3, `_rule_recent_large_drop`: deprioritize (confidence 0.7) when
`percent_change` parses and is at most −5.  The whole numeric test sits in a
`try/except: pass`, so this rule never raises. -/
def _rule_recent_large_drop (_investor asset : Dict) : RuleResult :=
  match pyGet asset "percent_change" with
  | .null => .ok none
  | pct =>
    match pyFloat pct with
    | .ok q =>
      if q ≤ -5 then
        .ok (some
          { rule := "recent_large_drop"
            outcome := "deprioritize"
            evidence := .dict [("percent_change", pct)]
            note := "Asset dropped more than 5% recently"
            confidence := 7/10 })
      else .ok none
    | .error _ => .ok none

/-- Threshold row of `RISK_THRESHOLDS`. -/
structure Thresholds where
  max_volatility : ℚ
  min_return : ℚ

/-- The `"medium"` row of `RISK_THRESHOLDS`. -/
def mediumThresholds : Thresholds := ⟨30/100, 6/100⟩

/-- `RISK_THRESHOLDS`: risk tolerance to thresholds. -/
def RISK_THRESHOLDS : List (String × Thresholds) :=
  [("low", ⟨15/100, 3/100⟩), ("medium", mediumThresholds), ("high", ⟨60/100, 12/100⟩)]

/-- `RISK_THRESHOLDS.get(risk, RISK_THRESHOLDS["medium"])`: strings are
looked up (defaulting to medium), other hashable values miss (medium), and
unhashable values (lists, dicts) raise `TypeError`. -/
def riskLookup : Val → Except Unit Thresholds
  | .str s => .ok ((RISK_THRESHOLDS.lookup s).getD mediumThresholds)
  | .null => .ok mediumThresholds
  | .num _ => .ok mediumThresholds
  | .list _ => .error ()
  | .dict _ => .error ()

/-- The `volatility or beta or stddev` fallback chain of
`_rule_return_and_risk`. -/
def volatilityOf (asset : Dict) : Val :=
  pyOr (pyGet asset "volatility") (pyOr (pyGet asset "beta") (pyGet asset "stddev"))

/-- Encode an optional number the way the evidence dict holds it (`None` or a
float). -/
def optNumVal : Option ℚ → Val
  | none => .null
  | some q => .num q

/-- Evidence rendering of a thresholds row. -/
def thresholdsVal (t : Thresholds) : Val :=
  .dict [("max_volatility", .num t.max_volatility), ("min_return", .num t.min_return)]

/-- Rule 4, `_rule_return_and_risk`: accept (confidence 0.8) when the derived
expected return meets `min_return` and volatility (when determinable) is at
most `max_volatility`; otherwise deprioritize (confidence 0.6); no outcome
when no expected return can be derived.  The proxy computation
`max(float(pct) / 100.0, 0.0)` sits outside any `try`, so an unparseable
`percent_change` raises, as does an unhashable `risk_tolerance`. -/
def _rule_return_and_risk (investor asset : Dict) : RuleResult :=
  match riskLookup (pyGetD investor "risk_tolerance" (.str "medium")) with
  | .error e => .error e
  | .ok thresholds =>
    let er0 := pyGet asset "expected_return"
    let volatility := volatilityOf asset
    let erE : Except Unit Val :=
      match er0 with
      | .null =>
        match pyGet asset "percent_change" with
        | .null => .ok .null
        | pct =>
          match pyFloat pct with
          | .ok q => .ok (.num (max (q / 100) 0))
          | .error e => .error e
      | v => .ok v
    match erE with
    | .error e => .error e
    | .ok erV =>
      let exp_r : Option ℚ :=
        match erV with
        | .null => none
        | v => (pyFloat v).toOption
      let vol : Option ℚ :=
        match volatility with
        | .null => none
        | v => (pyFloat v).toOption
      match exp_r with
      | none => .ok none
      | some er =>
        let volOk : Bool :=
          match vol with
          | none => true
          | some vq => decide (vq ≤ thresholds.max_volatility)
        if thresholds.min_return ≤ er ∧ volOk = true then
          .ok (some
            { rule := "accept_by_return_and_risk"
              outcome := "accept"
              evidence := .dict [("expected_return", .num er),
                ("volatility", optNumVal vol), ("thresholds", thresholdsVal thresholds)]
              note := "Meets expected return and volatility thresholds"
              confidence := 8/10 })
        else
          .ok (some
            { rule := "deprioritize_by_return_or_risk"
              outcome := "deprioritize"
              evidence := .dict [("expected_return", .num er),
                ("volatility", optNumVal vol), ("thresholds", thresholdsVal thresholds)]
              note := "Fails return / volatility requirements"
              confidence := 6/10 })

/-- The ordered rule list `RULES`. -/
def RULES : List (Dict → Dict → RuleResult) :=
  [_rule_exclude_industry, _rule_exclude_by_carbon,
   _rule_recent_large_drop, _rule_return_and_risk]

/-- The decision record built by `evaluate_asset`.  The `provenance` and
`timestamp` fields of the source are I/O results (a file write and a clock
read) and carry no decision content; they are elided from the embedded
record, whose remaining fields are computed exactly as in the source. -/
structure Decision where
  asset : Val
  decision : String
  score : ℚ
  reason_tree : List ReasonNode
  confidence : ℚ

/-- The rule loop of `evaluate_asset`: walk the rule results in order; a
raising rule (`except`) and a no-outcome rule are skipped; an outcome node is
appended to the reason tree and folded into the running decision with the
precedence of the source (`reject` breaks immediately; `accept` wins over a
previous non-accept; `deprioritize` only fires when nothing stronger is
recorded; the running confidence is `max`-accumulated on every decision
update). -/
def foldRules : List RuleResult → List ReasonNode → Option String → ℚ →
    List ReasonNode × Option String × ℚ
  | [], tree, dec, conf => (tree, dec, conf)
  | .error _ :: rest, tree, dec, conf => foldRules rest tree dec conf
  | .ok none :: rest, tree, dec, conf => foldRules rest tree dec conf
  | .ok (some node) :: rest, tree, dec, conf =>
    let tree' := tree ++ [node]
    if node.outcome = "reject" then
      (tree', some "reject", max conf node.confidence)
    else if node.outcome = "accept" then
      if dec ≠ some "accept" then
        foldRules rest tree' (some "accept") (max conf node.confidence)
      else
        foldRules rest tree' dec conf
    else if node.outcome = "deprioritize" then
      if dec ≠ some "accept" ∧ dec ≠ some "reject" then
        foldRules rest tree' (some "deprioritize") (max conf node.confidence)
      else
        foldRules rest tree' dec conf
    else
      foldRules rest tree' dec conf

/-- The synthetic node appended when no rule fired. -/
def default_deprioritize_node : ReasonNode :=
  { rule := "default_deprioritize"
    outcome := "deprioritize"
    evidence := .null
    note := "No rules strongly matched; default deprioritize"
    confidence := 1/5 }

/-- `mapping.get(final_decision, 0.5)` for
`mapping = {"accept": 1.0, "deprioritize": 0.5, "reject": 0.0}`. -/
def mappingGet (d : String) : ℚ :=
  (([("accept", (1 : ℚ)), ("deprioritize", 1/2), ("reject", 0)].lookup d).getD (1/2))

/-- `asset.get("symbol") or asset.get("id") or "UNKNOWN"`. -/
def symbolOf (asset : Dict) : Val :=
  pyOr (pyGet asset "symbol") (pyOr (pyGet asset "id") (.str "UNKNOWN"))

/-- Aggregation tail of `evaluate_asset`, applied to the symbol and the list
of rule results: run the rule loop, apply the no-rule default, and compute
the score.  (In the source a `break` on reject stops later rules from being
called at all; the rules are pure in this model, so discarding their results,
as `foldRules` does, yields the same decision.) -/
def evaluateResults (symbol : Val) (results : List RuleResult) : Decision :=
  let r := foldRules results [] none 0
  let tree := r.1
  let dec := r.2.1
  let conf := r.2.2
  match dec with
  | none =>
    { asset := symbol
      decision := "deprioritize"
      score := mappingGet "deprioritize" * (1/5)
      reason_tree := tree ++ [default_deprioritize_node]
      confidence := 1/5 }
  | some d =>
    { asset := symbol
      decision := d
      score := mappingGet d * conf
      reason_tree := tree
      confidence := conf }

/-- `evaluate_asset` over an explicit rule list (the source's loop
`for rule_fn in RULES`). -/
def evaluate_assetWith (rules : List (Dict → Dict → RuleResult))
    (investor asset : Dict) : Decision :=
  evaluateResults (symbolOf asset) (rules.map (fun r => r investor asset))

/-- `evaluate_asset`: evaluate one asset for an investor over the fixed rule
list. -/
def evaluate_asset (investor asset : Dict) : Decision :=
  evaluate_assetWith RULES investor asset

/-! ### Canonical JSON serialization (`json.dumps(obj, sort_keys=True, default=str)`) -/

/-- Hex digit character (lowercase), as Python emits in `\uXXXX` escapes. -/
def hexDigit (n : ℕ) : Char :=
  if n < 10 then Char.ofNat (48 + n) else Char.ofNat (87 + n)

/-- Four-digit hex rendering of a code point for a `\uXXXX` escape. -/
def hex4 (n : ℕ) : String :=
  String.mk ((List.range 4).map (fun i => hexDigit (n / 16 ^ (3 - i) % 16)))

/-- JSON escape of one character, as Python `json.dumps` emits with the
default `ensure_ascii=True`: the two mandatory escapes, the short control
escapes, and `\uXXXX` for remaining control and non-ASCII characters
(characters beyond the basic multilingual plane, which Python encodes as a
surrogate pair, are not modelled). -/
def jsonEscapeChar (c : Char) : String :=
  if c = '"' then "\\\""
  else if c = '\\' then "\\\\"
  else if c = '\n' then "\\n"
  else if c = '\t' then "\\t"
  else if c = '\r' then "\\r"
  else if c.toNat = 8 then "\\b"
  else if c.toNat = 12 then "\\f"
  else if c.toNat < 32 || c.toNat > 126 then "\\u" ++ hex4 c.toNat
  else String.mk [c]

/-- JSON string literal: quotes around the escaped characters. -/
def jsonQuote (s : String) : String :=
  "\"" ++ (s.data.map jsonEscapeChar).foldr (· ++ ·) "" ++ "\""

/-- Comma-space separated join, the default `json.dumps` item separator. -/
def joinCS : List String → String
  | [] => ""
  | [x] => x
  | x :: xs => x ++ ", " ++ joinCS xs

/-- Code-point lexicographic comparison of character lists, as Python
compares strings when sorting keys. -/
def charListLe : List Char → List Char → Bool
  | [], _ => true
  | _ :: _, [] => false
  | a :: as, b :: bs =>
    if a.toNat < b.toNat then true
    else if b.toNat < a.toNat then false
    else charListLe as bs

/-- String comparison used for `sort_keys=True`. -/
def strLe (a b : String) : Bool := charListLe a.data b.data

/-- Sort rendered dict entries by key (the effect of `sort_keys=True`). -/
def sortByKey (l : List (String × String)) : List (String × String) :=
  l.mergeSort (fun a b => strLe a.1 b.1)

mutual

/-- Model of `json.dumps(obj, sort_keys=True, default=str)` with the default
separators: `None` ↦ `null`, numbers rendered by `qRepr`, strings escaped and
quoted, lists bracketed, and dict entries rendered and then emitted in
lexicographic key order.  (Rendering an entry does not depend on its position,
so rendering before sorting agrees with the source, which sorts before
rendering.) -/
def dumps : Val → String
  | .null => "null"
  | .num q => qRepr q
  | .str s => jsonQuote s
  | .list xs => "[" ++ joinCS (dumpsList xs) ++ "]"
  | .dict kvs => "\x7b" ++ joinCS ((sortByKey (dumpsEntries kvs)).map Prod.snd) ++ "\x7d"

/-- Rendered items of a JSON array. -/
def dumpsList : List Val → List String
  | [] => []
  | x :: xs => dumps x :: dumpsList xs

/-- Entries of a JSON object rendered as (key, `"key": value`) pairs. -/
def dumpsEntries : List (String × Val) → List (String × String)
  | [] => []
  | (k, v) :: rest => (k, jsonQuote k ++ ": " ++ dumps v) :: dumpsEntries rest

end

/-- Python `str(x)` on a value, used for the `{symbol}` filename piece (exact
container rendering is modelled by the JSON form; no claim depends on it). -/
def pyStr : Val → String
  | .null => "None"
  | .num q => qRepr q
  | .str s => s
  | v => dumps v

/-! ### SHA-256 (FIPS 180-4) over `ℕ` with explicit mod-2³² arithmetic -/

/-- Addition modulo 2³². -/
def add32 (a b : ℕ) : ℕ := (a + b) % 2 ^ 32

/-- Right rotation of a 32-bit word. -/
def rotr32 (n w : ℕ) : ℕ := w / 2 ^ n + w % 2 ^ n * 2 ^ (32 - n)

/-- Bitwise complement within 32 bits. -/
def not32 (w : ℕ) : ℕ := Nat.xor w (2 ^ 32 - 1)

/-- `Ch(x,y,z)`. -/
def shaCh (x y z : ℕ) : ℕ := Nat.xor (Nat.land x y) (Nat.land (not32 x) z)

/-- `Maj(x,y,z)`. -/
def shaMaj (x y z : ℕ) : ℕ :=
  Nat.xor (Nat.land x y) (Nat.xor (Nat.land x z) (Nat.land y z))

/-- `Σ₀`. -/
def bsig0 (x : ℕ) : ℕ := Nat.xor (rotr32 2 x) (Nat.xor (rotr32 13 x) (rotr32 22 x))

/-- `Σ₁`. -/
def bsig1 (x : ℕ) : ℕ := Nat.xor (rotr32 6 x) (Nat.xor (rotr32 11 x) (rotr32 25 x))

/-- `σ₀`. -/
def ssig0 (x : ℕ) : ℕ := Nat.xor (rotr32 7 x) (Nat.xor (rotr32 18 x) (x / 2 ^ 3))

/-- `σ₁`. -/
def ssig1 (x : ℕ) : ℕ := Nat.xor (rotr32 17 x) (Nat.xor (rotr32 19 x) (x / 2 ^ 10))

/-- The 64 SHA-256 round constants. -/
def shaK : List ℕ :=
  [0x428A2F98, 0x71374491, 0xB5C0FBCF, 0xE9B5DBA5, 0x3956C25B, 0x59F111F1,
   0x923F82A4, 0xAB1C5ED5, 0xD807AA98, 0x12835B01, 0x243185BE, 0x550C7DC3,
   0x72BE5D74, 0x80DEB1FE, 0x9BDC06A7, 0xC19BF174, 0xE49B69C1, 0xEFBE4786,
   0x0FC19DC6, 0x240CA1CC, 0x2DE92C6F, 0x4A7484AA, 0x5CB0A9DC, 0x76F988DA,
   0x983E5152, 0xA831C66D, 0xB00327C8, 0xBF597FC7, 0xC6E00BF3, 0xD5A79147,
   0x06CA6351, 0x14292967, 0x27B70A85, 0x2E1B2138, 0x4D2C6DFC, 0x53380D13,
   0x650A7354, 0x766A0ABB, 0x81C2C92E, 0x92722C85, 0xA2BFE8A1, 0xA81A664B,
   0xC24B8B70, 0xC76C51A3, 0xD192E819, 0xD6990624, 0xF40E3585, 0x106AA070,
   0x19A4C116, 0x1E376C08, 0x2748774C, 0x34B0BCB5, 0x391C0CB3, 0x4ED8AA4A,
   0x5B9CCA4F, 0x682E6FF3, 0x748F82EE, 0x78A5636F, 0x84C87814, 0x8CC70208,
   0x90BEFFFA, 0xA4506CEB, 0xBEF9A3F7, 0xC67178F2]

/-- The eight-word working state. -/
structure Hash8 where
  a : ℕ
  b : ℕ
  c : ℕ
  d : ℕ
  e : ℕ
  f : ℕ
  g : ℕ
  h : ℕ

/-- The SHA-256 initial hash value. -/
def shaH0 : Hash8 :=
  ⟨0x6A09E667, 0xBB67AE85, 0x3C6EF372, 0xA54FF53A,
   0x510E527F, 0x9B05688C, 0x1F83D9AB, 0x5BE0CD19⟩

/-- Extend a 16-word block to the 64-word message schedule.  The accumulator
is kept newest-first, so `W[t-2]`, `W[t-7]`, `W[t-15]`, `W[t-16]` are at
indices 1, 6, 14, 15. -/
def scheduleRounds : ℕ → List ℕ → List ℕ
  | 0, acc => acc
  | k + 1, acc =>
    scheduleRounds k
      (add32 (add32 (ssig1 (acc.getD 1 0)) (acc.getD 6 0))
        (add32 (ssig0 (acc.getD 14 0)) (acc.getD 15 0)) :: acc)

/-- The 64-word message schedule of one block. -/
def schedule (block : List ℕ) : List ℕ := (scheduleRounds 48 block.reverse).reverse

/-- The 64 compression rounds. -/
def compressRounds : List ℕ → List ℕ → Hash8 → Hash8
  | wt :: ws, kt :: ks, s =>
    let t1 := add32 s.h (add32 (bsig1 s.e) (add32 (shaCh s.e s.f s.g) (add32 kt wt)))
    let t2 := add32 (bsig0 s.a) (shaMaj s.a s.b s.c)
    compressRounds ws ks ⟨add32 t1 t2, s.a, s.b, s.c, add32 s.d t1, s.e, s.f, s.g⟩
  | _, _, s => s

/-- Compress one 16-word block into the state. -/
def compress (s : Hash8) (block : List ℕ) : Hash8 :=
  let t := compressRounds (schedule block) shaK s
  ⟨add32 s.a t.a, add32 s.b t.b, add32 s.c t.c, add32 s.d t.d,
   add32 s.e t.e, add32 s.f t.f, add32 s.g t.g, add32 s.h t.h⟩

/-- Fold `compress` over the 16-word blocks of the padded word stream. -/
def sha256Words (s : Hash8) (ws : List ℕ) : Hash8 :=
  match ws with
  | [] => s
  | w :: rest => sha256Words (compress s ((w :: rest).take 16)) (rest.drop 15)
termination_by ws.length
decreasing_by simp [List.length_drop]; omega

/-- Big-endian 8-byte encoding of the 64-bit message bit length. -/
def be8 (n : ℕ) : List ℕ := (List.range 8).map (fun i => n / 2 ^ (8 * (7 - i)) % 256)

/-- SHA-256 message padding: `0x80`, zeros to 56 mod 64, and the bit length. -/
def padBytes (msg : List ℕ) : List ℕ :=
  msg ++ 0x80 :: List.replicate ((56 + 64 - (msg.length + 1) % 64) % 64) 0 ++
    be8 (8 * msg.length)

/-- Pack bytes into big-endian 32-bit words. -/
def bytesToWords : List ℕ → List ℕ
  | b0 :: b1 :: b2 :: b3 :: rest => (((b0 * 256 + b1) * 256 + b2) * 256 + b3) :: bytesToWords rest
  | _ => []

/-- UTF-8 encoding of one character. -/
def utf8Encode (c : Char) : List ℕ :=
  let n := c.toNat
  if n < 0x80 then [n]
  else if n < 0x800 then [0xc0 + n / 64, 0x80 + n % 64]
  else if n < 0x10000 then [0xe0 + n / 4096, 0x80 + n / 64 % 64, 0x80 + n % 64]
  else [0xf0 + n / 262144, 0x80 + n / 4096 % 64, 0x80 + n / 64 % 64, 0x80 + n % 64]

/-- UTF-8 bytes of a string (`.encode("utf-8")`). -/
def strBytes (s : String) : List ℕ := s.data.foldr (fun c acc => utf8Encode c ++ acc) []

/-- Fixed-width 8-hex-character rendering of one digest word. -/
def wordHex (w : ℕ) : String :=
  String.mk ((List.range 8).map (fun i => hexDigit (w / 16 ^ (7 - i) % 16)))

/-- Hex digest of a byte sequence. -/
def sha256Hex (msg : List ℕ) : String :=
  let d := sha256Words shaH0 (bytesToWords (padBytes msg))
  wordHex d.a ++ wordHex d.b ++ wordHex d.c ++ wordHex d.d ++
    wordHex d.e ++ wordHex d.f ++ wordHex d.g ++ wordHex d.h

/-- `sha256_of_obj`: hex SHA-256 of the canonical (sorted-keys) JSON
serialization of an object. -/
def sha256_of_obj (obj : Val) : String := sha256Hex (strBytes (dumps obj))

/-! ### Provenance recorder (`record_provenance_blob`) -/

/-- `PROVENANCE_DIR` (the configured default `./provenance_logs`). -/
def PROVENANCE_DIR : String := "./provenance_logs"

/-- The receipt returned by `record_provenance_blob`: exactly the four fields
`symbol`, `hash`, `path` and `timestamp` — in particular no `raw` field, so
the full snapshot is never part of the receipt. -/
structure ProvenanceReceipt where
  symbol : Val
  hash : String
  path : String
  timestamp : ℕ

/-- The full persisted provenance entry
`{timestamp, source, symbol, hash, raw, tag}` (written to the file, never
returned). -/
def provenanceEntry (ts : ℕ) (raw_api_response : Dict) (tag : Option Val) : Val :=
  .dict [("timestamp", .num ts),
         ("source", pyGetD raw_api_response "source" (.str "unknown")),
         ("symbol", pyOr (pyGet raw_api_response "symbol") (pyGet raw_api_response "id")),
         ("hash", .str (sha256_of_obj (.dict raw_api_response))),
         ("raw", .dict raw_api_response),
         ("tag", tag.getD .null)]

/-- `record_provenance_blob`: hash the snapshot, build the entry, attempt the
file write (modelled by `writeOk`; the source wraps the write in
`try/except`, logging and swallowing failures), and return the receipt.  The
returned pair is (receipt, persisted file content or `none` when the write
failed); the function is total — it never raises past its boundary. -/
def record_provenance_blob (ts : ℕ) (writeOk : Bool) (raw_api_response : Dict)
    (tag : Option Val) : ProvenanceReceipt × Option Val :=
  let hash_ := sha256_of_obj (.dict raw_api_response)
  let symbol := pyOr (pyGet raw_api_response "symbol") (pyGet raw_api_response "id")
  let path := PROVENANCE_DIR ++ "/" ++ pyStr symbol ++ "_" ++ toString ts ++ ".json"
  (⟨symbol, hash_, path, ts⟩,
   if writeOk then some (provenanceEntry ts raw_api_response tag) else none)

/-- The claim's score table `{accept: 1.0, deprioritize: 0.5, reject: 0.0}`. -/
def claimMapping (d : String) : ℚ :=
  if d = "accept" then 1 else if d = "deprioritize" then 1/2 else 0

/-- Maximum confidence among the accept nodes of a reason tree (0 when there
are none). -/
def acceptMax (tree : List ReasonNode) : ℚ :=
  ((tree.filter (fun n => decide (n.outcome = "accept"))).map ReasonNode.confidence).foldr
    max 0

/-! ### Structural lemmas about the rule loop -/

/-- A raising rule anywhere in the chain contributes nothing: the loop result
is the same as if the rule were absent, with every later rule still folded. -/
theorem foldRules_error_skip (rs1 rs2 : List RuleResult) (e : Unit) :
    ∀ t d c, foldRules (rs1 ++ .error e :: rs2) t d c = foldRules (rs1 ++ rs2) t d c := by
  induction rs1 with
  | nil => intro t d c; simp only [List.nil_append, foldRules]
  | cons r rs ih =>
    intro t d c
    match r with
    | .error _ => simp only [List.cons_append, foldRules]; exact ih t d c
    | .ok none => simp only [List.cons_append, foldRules]; exact ih t d c
    | .ok (some node) =>
      simp only [List.cons_append, foldRules]
      split_ifs <;> first | rfl | exact ih ..

/-- A list of results none of which carries an outcome leaves the loop state
unchanged. -/
theorem foldRules_noop (rs : List RuleResult)
    (h : ∀ r ∈ rs, r = .ok none ∨ ∃ e, r = .error e) :
    ∀ t d c, foldRules rs t d c = (t, d, c) := by
  induction rs with
  | nil => intro t d c; rfl
  | cons r rest ih =>
    intro t d c
    have hr := h r (List.mem_cons_self r rest)
    have hrest : ∀ r ∈ rest, r = .ok none ∨ ∃ e, r = .error e :=
      fun x hx => h x (List.mem_cons_of_mem r hx)
    rcases hr with hr | ⟨e, hr⟩ <;> subst hr <;>
      simpa only [foldRules] using ih hrest t d c

/-- The running decision of the loop is always `none` or one of the three
decision strings. -/
theorem foldRules_dec (rs : List RuleResult) :
    ∀ t d c, (d = none ∨ d = some "accept" ∨ d = some "reject" ∨ d = some "deprioritize") →
    ((foldRules rs t d c).2.1 = none ∨ (foldRules rs t d c).2.1 = some "accept" ∨
      (foldRules rs t d c).2.1 = some "reject" ∨
      (foldRules rs t d c).2.1 = some "deprioritize") := by
  induction rs with
  | nil => intro t d c hd; exact hd
  | cons r rest ih =>
    intro t d c hd
    match r with
    | .error _ => exact ih t d c hd
    | .ok none => exact ih t d c hd
    | .ok (some node) =>
      simp only [foldRules]
      split_ifs <;>
        first
        | simp
        | exact ih _ _ _ (Or.inr (Or.inl rfl))
        | exact ih _ _ _ (Or.inr (Or.inr (Or.inr rfl)))
        | exact ih _ _ _ hd

theorem mappingGet_accept : mappingGet "accept" = 1 := rfl

theorem mappingGet_reject : mappingGet "reject" = 0 := rfl

theorem mappingGet_deprioritize : mappingGet "deprioritize" = 1/2 := rfl

theorem claimMapping_accept : claimMapping "accept" = 1 := rfl

theorem claimMapping_reject : claimMapping "reject" = 0 := rfl

theorem claimMapping_deprioritize : claimMapping "deprioritize" = 1/2 := rfl

/-- Every decision produced by the aggregation tail is one of the three
decision strings, and its score is the claim's table value times the final
confidence. -/
theorem evaluateResults_score (sym : Val) (results : List RuleResult) :
    (evaluateResults sym results).score =
      claimMapping (evaluateResults sym results).decision *
        (evaluateResults sym results).confidence ∧
    ((evaluateResults sym results).decision = "accept" ∨
      (evaluateResults sym results).decision = "reject" ∨
      (evaluateResults sym results).decision = "deprioritize") := by
  have hd := foldRules_dec results [] none 0 (Or.inl rfl)
  rcases h : (foldRules results [] none 0).2.1 with _ | d
  · constructor
    · simp only [evaluateResults, h]
      rw [mappingGet_deprioritize, claimMapping_deprioritize]
    · simp [evaluateResults, h]
  · rw [h] at hd
    rcases hd with hd | hd | hd | hd
    · exact absurd hd (by simp)
    · obtain rfl : d = "accept" := by injection hd
      constructor
      · simp only [evaluateResults, h]
        rw [mappingGet_accept, claimMapping_accept]
      · simp [evaluateResults, h]
    · obtain rfl : d = "reject" := by injection hd
      constructor
      · simp only [evaluateResults, h]
        rw [mappingGet_reject, claimMapping_reject]
      · simp [evaluateResults, h]
    · obtain rfl : d = "deprioritize" := by injection hd
      constructor
      · simp only [evaluateResults, h]
        rw [mappingGet_deprioritize, claimMapping_deprioritize]
      · simp [evaluateResults, h]

/-- C3: for every Decision returned by `evaluate_asset`, `score` equals the
table value `{accept: 1.0, deprioritize: 0.5, reject: 0.0}` of the decision
times the final confidence (the decision always being one of those three
strings), so the score depends on the (decision, confidence) pair alone. -/
theorem claim_C3 (investor asset : Dict) :
    (evaluate_asset investor asset).score =
      claimMapping (evaluate_asset investor asset).decision *
        (evaluate_asset investor asset).confidence ∧
    ((evaluate_asset investor asset).decision = "accept" ∨
      (evaluate_asset investor asset).decision = "reject" ∨
      (evaluate_asset investor asset).decision = "deprioritize") :=
  evaluateResults_score _ _

/-- C5: if a rule function raises, `evaluate_asset` still returns a
well-formed Decision — the evaluation equals the evaluation with that rule
removed from the chain (so the faulting rule contributes no reason node and
every remaining rule is still folded in order), and the decision is one of
the three decision strings. -/
theorem claim_C5 (fs1 fs2 : List (Dict → Dict → RuleResult))
    (f : Dict → Dict → RuleResult) (investor asset : Dict) (e : Unit)
    (hf : f investor asset = .error e) :
    evaluate_assetWith (fs1 ++ f :: fs2) investor asset =
      evaluate_assetWith (fs1 ++ fs2) investor asset ∧
    ((evaluate_assetWith (fs1 ++ f :: fs2) investor asset).decision = "accept" ∨
      (evaluate_assetWith (fs1 ++ f :: fs2) investor asset).decision = "reject" ∨
      (evaluate_assetWith (fs1 ++ f :: fs2) investor asset).decision = "deprioritize") := by
  constructor
  · simp only [evaluate_assetWith, List.map_append, List.map_cons, hf,
      evaluateResults, foldRules_error_skip]
  · exact (evaluateResults_score _ _).2

/-- C5 witness: `_rule_exclude_industry` raises on a non-string excluded
entry (`.strip()` on a number), and the claim applies there with the
remaining three rules of `RULES` as the tail of the chain. -/
theorem claim_C5_witness :
    _rule_exclude_industry [("excluded_industries", Val.list [Val.num 3])]
        [("sector", Val.str "x")] = .error () ∧
    evaluate_assetWith ([] ++ _rule_exclude_industry ::
        [_rule_exclude_by_carbon, _rule_recent_large_drop, _rule_return_and_risk])
        [("excluded_industries", Val.list [Val.num 3])] [("sector", Val.str "x")] =
      evaluate_assetWith ([] ++
        [_rule_exclude_by_carbon, _rule_recent_large_drop, _rule_return_and_risk])
        [("excluded_industries", Val.list [Val.num 3])] [("sector", Val.str "x")] :=
  ⟨rfl,
   (claim_C5 [] [_rule_exclude_by_carbon, _rule_recent_large_drop, _rule_return_and_risk]
     _rule_exclude_industry [("excluded_industries", Val.list [Val.num 3])]
     [("sector", Val.str "x")] () rfl).1⟩

/-- C4: when none of the four rules produces an outcome, the decision is the
default deprioritize with confidence exactly 0.2, score exactly 0.1, and the
reason tree holds exactly the one synthetic `default_deprioritize` node. -/
theorem claim_C4 (investor asset : Dict)
    (h : ∀ r ∈ RULES, r investor asset = .ok none ∨ ∃ e, r investor asset = .error e) :
    (evaluate_asset investor asset).decision = "deprioritize" ∧
    (evaluate_asset investor asset).confidence = 1/5 ∧
    (evaluate_asset investor asset).score = 1/10 ∧
    (evaluate_asset investor asset).reason_tree = [default_deprioritize_node] := by
  have hres : ∀ res ∈ RULES.map (fun r => r investor asset),
      res = .ok none ∨ ∃ e, res = .error e := by
    intro res hmem
    rcases List.mem_map.mp hmem with ⟨r, hr, rfl⟩
    exact h r hr
  have hfold := foldRules_noop _ hres [] none 0
  simp only [evaluate_asset, evaluate_assetWith, evaluateResults, hfold, List.nil_append]
  norm_num [mappingGet_deprioritize]

/-- C4 witness: on the empty investor and asset dicts no rule fires, and the
claim applies there. -/
theorem claim_C4_witness :
    (∀ r ∈ RULES, r ([] : Dict) ([] : Dict) = .ok none ∨
      ∃ e, r ([] : Dict) ([] : Dict) = .error e) ∧
    ((evaluate_asset [] []).decision = "deprioritize" ∧
      (evaluate_asset [] []).confidence = 1/5 ∧
      (evaluate_asset [] []).score = 1/10 ∧
      (evaluate_asset [] []).reason_tree = [default_deprioritize_node]) := by
  have h : ∀ r ∈ RULES, r ([] : Dict) ([] : Dict) = .ok none ∨
      ∃ e, r ([] : Dict) ([] : Dict) = .error e := by
    intro r hr
    simp only [RULES, List.mem_cons, List.not_mem_nil, or_false] at hr
    rcases hr with rfl | rfl | rfl | rfl
    · exact Or.inl rfl
    · exact Or.inl rfl
    · exact Or.inl rfl
    · exact Or.inl rfl
  exact ⟨h, claim_C4 [] [] h⟩

/-! ### The exclude-by-industry rule (claims C1 and C7) -/

/-- Stripping and lowercasing a list of string entries succeeds and acts
entrywise. -/
theorem stripLowerEntries_map_str (ss : List String) :
    stripLowerEntries (ss.map Val.str) = .ok (ss.map (fun s => pyLower (pyStrip s))) := by
  induction ss with
  | nil => rfl
  | cons s rest ih => simp only [List.map_cons, stripLowerEntries, ih]

/-- C1 counterexample: the claim demands a reject whenever the sector
case-insensitively matches an excluded entry, but the source compares the
raw sector against *stripped* entries.  With the entry `" tobacco"` and the
identical sector `" tobacco"` (a case-insensitive match of the entry), the
stripped entry is `"tobacco"`, the comparison fails, no rule fires, and the
decision is the default `"deprioritize"`, not `"reject"`. -/
theorem claim_C1_counterexample :
    pyLower " tobacco" = pyLower " tobacco" ∧
    pyGet [("excluded_industries", Val.list [Val.str " tobacco"])] "excluded_industries" =
      Val.list [Val.str " tobacco"] ∧
    pyGetD [("sector", Val.str " tobacco")] "sector" (Val.str "") = Val.str " tobacco" ∧
    (evaluate_asset [("excluded_industries", Val.list [Val.str " tobacco"])]
      [("sector", Val.str " tobacco")]).decision = "deprioritize" ∧
    (evaluate_asset [("excluded_industries", Val.list [Val.str " tobacco"])]
      [("sector", Val.str " tobacco")]).decision ≠ "reject" :=
  ⟨rfl, rfl, rfl, rfl, by decide⟩

/-- C1 (amended): for every investor whose `excluded_industries` is a
non-empty list of strings and every asset whose sector, lowercased, equals
some excluded entry after that entry is stripped and lowercased,
`evaluate_asset` rejects with confidence 0.95 and the reason tree is exactly
one `exclude_by_industry` node (no later rule's node appears), regardless of
all other fields. -/
theorem claim_C1 (investor asset : Dict) (ss : List String) (sec : String)
    (hex : pyGet investor "excluded_industries" = Val.list (ss.map Val.str))
    (hne : ss ≠ [])
    (hsec : pyGetD asset "sector" (Val.str "") = Val.str sec)
    (hmatch : pyLower sec ∈ ss.map (fun s => pyLower (pyStrip s))) :
    (evaluate_asset investor asset).decision = "reject" ∧
    (evaluate_asset investor asset).confidence = 95/100 ∧
    (evaluate_asset investor asset).reason_tree.map ReasonNode.rule =
      ["exclude_by_industry"] := by
  have hemp : (ss.map Val.str).isEmpty = false := by
    cases ss with
    | nil => exact absurd rfl hne
    | cons a l => rfl
  have hexc : pyOr (pyGet investor "excluded_industries") (.list []) =
      Val.list (ss.map Val.str) := by
    rw [hex]; simp [pyOr, truthy, hemp]
  have hsec2 : pyOr (pyGetD asset "sector" (.str "")) (.str "") = Val.str sec := by
    rw [hsec]
    rcases eq_or_ne sec "" with rfl | h
    · rfl
    · simp [pyOr, truthy, h]
  have hr1 : _rule_exclude_industry investor asset = .ok (some
      { rule := "exclude_by_industry", outcome := "reject",
        evidence := .dict [("sector", Val.str sec),
          ("excluded", Val.list (ss.map Val.str))],
        note := "Asset sector \x27" ++ sec ++ "\x27 matches investor excluded industries",
        confidence := 95/100 }) := by
    simp only [_rule_exclude_industry, hexc, hsec2, truthy, hemp, pyIter,
      stripLowerEntries_map_str]
    rw [if_pos hmatch]
    simp
  have hrules : RULES.map (fun r => r investor asset) =
      [_rule_exclude_industry investor asset, _rule_exclude_by_carbon investor asset,
       _rule_recent_large_drop investor asset, _rule_return_and_risk investor asset] := rfl
  refine ⟨?_, ?_, ?_⟩ <;>
    · simp only [evaluate_asset, evaluate_assetWith, hrules, hr1, evaluateResults, foldRules]
      norm_num

/-- C1 witness: the spec's concrete scenario A (sector `"Tobacco"`, excluded
entry `"Tobacco"`) satisfies the amended hypotheses, and the theorem applies
there. -/
theorem claim_C1_witness :
    (pyGet [("risk_tolerance", Val.str "medium"),
        ("excluded_industries", Val.list [Val.str "Tobacco"])] "excluded_industries" =
      Val.list (["Tobacco"].map Val.str)) ∧
    (["Tobacco"] ≠ ([] : List String)) ∧
    (pyGetD [("symbol", Val.str "XYZ"), ("sector", Val.str "Tobacco"),
        ("percent_change", Val.num 2)] "sector" (Val.str "") = Val.str "Tobacco") ∧
    (pyLower "Tobacco" ∈ ["Tobacco"].map (fun s => pyLower (pyStrip s))) ∧
    ((evaluate_asset
        [("risk_tolerance", Val.str "medium"),
         ("excluded_industries", Val.list [Val.str "Tobacco"])]
        [("symbol", Val.str "XYZ"), ("sector", Val.str "Tobacco"),
         ("percent_change", Val.num 2)]).decision = "reject" ∧
      (evaluate_asset
        [("risk_tolerance", Val.str "medium"),
         ("excluded_industries", Val.list [Val.str "Tobacco"])]
        [("symbol", Val.str "XYZ"), ("sector", Val.str "Tobacco"),
         ("percent_change", Val.num 2)]).confidence = 95/100 ∧
      (evaluate_asset
        [("risk_tolerance", Val.str "medium"),
         ("excluded_industries", Val.list [Val.str "Tobacco"])]
        [("symbol", Val.str "XYZ"), ("sector", Val.str "Tobacco"),
         ("percent_change", Val.num 2)]).reason_tree.map ReasonNode.rule =
        ["exclude_by_industry"]) :=
  ⟨rfl, by decide, rfl, by decide,
   claim_C1 _ _ ["Tobacco"] "Tobacco" rfl (by decide) rfl (by decide)⟩

/-- C7 counterexample: the claim says an absent sector yields no outcome
regardless of the excluded entries, including empty or whitespace-only ones;
but with the entry `""` and no sector field, the sector defaults to `""`,
which equals the stripped empty entry, and the rule rejects. -/
theorem claim_C7_counterexample :
    pyLookup ([] : Dict) "sector" = none ∧
    _rule_exclude_industry [("excluded_industries", Val.list [Val.str ""])] [] =
      .ok (some
        { rule := "exclude_by_industry", outcome := "reject",
          evidence := .dict [("sector", Val.str ""),
            ("excluded", Val.list [Val.str ""])],
          note := "Asset sector \x27\x27 matches investor excluded industries",
          confidence := 95/100 }) :=
  ⟨rfl, rfl⟩

/-- C7 (amended): when the asset has no sector field and every entry of the
(string-valued) excluded list is non-empty after stripping and lowercasing,
the exclude-by-industry rule emits no outcome. -/
theorem claim_C7 (investor asset : Dict) (ss : List String)
    (hsec : pyLookup asset "sector" = none)
    (hex : pyGet investor "excluded_industries" = Val.list (ss.map Val.str))
    (hok : ∀ s ∈ ss, pyLower (pyStrip s) ≠ "") :
    _rule_exclude_industry investor asset = .ok none := by
  have hsec2 : pyOr (pyGetD asset "sector" (.str "")) (.str "") = Val.str "" := by
    simp [pyGetD, hsec, pyOr, truthy]
  cases ss with
  | nil =>
    have hexc : pyOr (pyGet investor "excluded_industries") (.list []) = Val.list [] := by
      rw [hex]; rfl
    simp [_rule_exclude_industry, hexc, truthy]
  | cons a l =>
    have hexc : pyOr (pyGet investor "excluded_industries") (.list []) =
        Val.list ((a :: l).map Val.str) := by
      rw [hex]; simp [pyOr, truthy]
    have hnotmem : pyLower "" ∉ (a :: l).map (fun s => pyLower (pyStrip s)) := by
      intro hmem
      rcases List.mem_map.mp hmem with ⟨s, hs, heq⟩
      exact hok s hs heq
    simp only [_rule_exclude_industry, hexc, hsec2, truthy, List.isEmpty_cons,
      Bool.not_false, Bool.false_eq_true, if_false, pyIter, stripLowerEntries_map_str,
      List.map_map]
    rw [if_neg hnotmem]
    simp

/-- C7 witness: a normal excluded list (one non-blank string entry) and an
asset without a sector, to which the amended theorem applies. -/
theorem claim_C7_witness :
    pyLookup ([] : Dict) "sector" = none ∧
    pyGet [("excluded_industries", Val.list [Val.str "Tobacco"])] "excluded_industries" =
      Val.list (["Tobacco"].map Val.str) ∧
    (∀ s ∈ ["Tobacco"], pyLower (pyStrip s) ≠ "") ∧
    _rule_exclude_industry [("excluded_industries", Val.list [Val.str "Tobacco"])] [] =
      .ok none :=
  ⟨rfl, rfl, by decide,
   claim_C7 [("excluded_industries", Val.list [Val.str "Tobacco"])] [] ["Tobacco"]
     rfl rfl (by decide)⟩

/-! ### Concrete scenario B (claim C6) -/

/-- C6: for investor `{risk_tolerance: "low"}` and asset
`{symbol: "ABC", percent_change: -8}`, the decision is `deprioritize` with
confidence 0.70 and score 0.35; the reason tree holds exactly the
recent-large-drop node (confidence 0.70) followed by the return-and-risk
deprioritize node (confidence 0.60), the latter built from the derived
expected return `max(-8/100, 0) = 0` (below the low-risk `min_return` 0.03),
as its evidence records. -/
theorem claim_C6 :
    (evaluate_asset [("risk_tolerance", Val.str "low")]
        [("symbol", Val.str "ABC"), ("percent_change", Val.num (-8))]).decision =
      "deprioritize" ∧
    (evaluate_asset [("risk_tolerance", Val.str "low")]
        [("symbol", Val.str "ABC"), ("percent_change", Val.num (-8))]).confidence =
      7/10 ∧
    (evaluate_asset [("risk_tolerance", Val.str "low")]
        [("symbol", Val.str "ABC"), ("percent_change", Val.num (-8))]).score = 7/20 ∧
    (evaluate_asset [("risk_tolerance", Val.str "low")]
        [("symbol", Val.str "ABC"), ("percent_change", Val.num (-8))]).reason_tree.map
      (fun n => (n.rule, n.outcome, n.confidence)) =
      [("recent_large_drop", "deprioritize", 7/10),
       ("deprioritize_by_return_or_risk", "deprioritize", 6/10)] ∧
    (evaluate_asset [("risk_tolerance", Val.str "low")]
        [("symbol", Val.str "ABC"), ("percent_change", Val.num (-8))]).reason_tree.map
      ReasonNode.evidence =
      [.dict [("percent_change", Val.num (-8))],
       .dict [("expected_return", Val.num 0), ("volatility", Val.null),
              ("thresholds", thresholdsVal ⟨15/100, 3/100⟩)]] := by
  have h1 : _rule_exclude_industry [("risk_tolerance", Val.str "low")]
      [("symbol", Val.str "ABC"), ("percent_change", Val.num (-8))] = .ok none := rfl
  have h2 : _rule_exclude_by_carbon [("risk_tolerance", Val.str "low")]
      [("symbol", Val.str "ABC"), ("percent_change", Val.num (-8))] = .ok none := rfl
  have h3step : _rule_recent_large_drop [("risk_tolerance", Val.str "low")]
      [("symbol", Val.str "ABC"), ("percent_change", Val.num (-8))] =
      (if (-8 : ℚ) ≤ -5 then
        .ok (some
          { rule := "recent_large_drop", outcome := "deprioritize",
            evidence := .dict [("percent_change", Val.num (-8))],
            note := "Asset dropped more than 5% recently", confidence := 7/10 })
      else .ok none) := rfl
  have h3 : _rule_recent_large_drop [("risk_tolerance", Val.str "low")]
      [("symbol", Val.str "ABC"), ("percent_change", Val.num (-8))] =
      .ok (some
        { rule := "recent_large_drop", outcome := "deprioritize",
          evidence := .dict [("percent_change", Val.num (-8))],
          note := "Asset dropped more than 5% recently", confidence := 7/10 }) := by
    rw [h3step, if_pos (by norm_num : (-8 : ℚ) ≤ -5)]
  have hm : max ((-8 : ℚ) / 100) 0 = 0 := max_eq_right (by norm_num)
  have h4step : _rule_return_and_risk [("risk_tolerance", Val.str "low")]
      [("symbol", Val.str "ABC"), ("percent_change", Val.num (-8))] =
      (if (3/100 : ℚ) ≤ max ((-8 : ℚ) / 100) 0 ∧ true = true then
        .ok (some
          { rule := "accept_by_return_and_risk", outcome := "accept",
            evidence := .dict [("expected_return", Val.num (max ((-8 : ℚ) / 100) 0)),
              ("volatility", Val.null), ("thresholds", thresholdsVal ⟨15/100, 3/100⟩)],
            note := "Meets expected return and volatility thresholds",
            confidence := 8/10 })
      else
        .ok (some
          { rule := "deprioritize_by_return_or_risk", outcome := "deprioritize",
            evidence := .dict [("expected_return", Val.num (max ((-8 : ℚ) / 100) 0)),
              ("volatility", Val.null), ("thresholds", thresholdsVal ⟨15/100, 3/100⟩)],
            note := "Fails return / volatility requirements",
            confidence := 6/10 })) := rfl
  have h4 : _rule_return_and_risk [("risk_tolerance", Val.str "low")]
      [("symbol", Val.str "ABC"), ("percent_change", Val.num (-8))] =
      .ok (some
        { rule := "deprioritize_by_return_or_risk", outcome := "deprioritize",
          evidence := .dict [("expected_return", Val.num 0), ("volatility", Val.null),
            ("thresholds", thresholdsVal ⟨15/100, 3/100⟩)],
          note := "Fails return / volatility requirements", confidence := 6/10 }) := by
    rw [h4step, if_neg (by rw [hm]; norm_num), hm]
  have hconf : max (max (0 : ℚ) (7/10)) (6/10) = 7/10 := by
    rw [max_eq_right (by norm_num : (0 : ℚ) ≤ 7/10)]
    exact max_eq_left (by norm_num)
  have hrules : RULES.map (fun r =>
      r [("risk_tolerance", Val.str "low")]
        [("symbol", Val.str "ABC"), ("percent_change", Val.num (-8))]) =
      [_rule_exclude_industry [("risk_tolerance", Val.str "low")]
        [("symbol", Val.str "ABC"), ("percent_change", Val.num (-8))],
       _rule_exclude_by_carbon [("risk_tolerance", Val.str "low")]
        [("symbol", Val.str "ABC"), ("percent_change", Val.num (-8))],
       _rule_recent_large_drop [("risk_tolerance", Val.str "low")]
        [("symbol", Val.str "ABC"), ("percent_change", Val.num (-8))],
       _rule_return_and_risk [("risk_tolerance", Val.str "low")]
        [("symbol", Val.str "ABC"), ("percent_change", Val.num (-8))]] := rfl
  refine ⟨?_, ?_, ?_, ?_, ?_⟩
  all_goals simp only [evaluate_asset, evaluate_assetWith, hrules, h1, h2, h3, h4,
    evaluateResults, foldRules, List.map_cons, List.map_nil]
  · simp
  · simp
    exact hconf
  · simp [mappingGet_deprioritize, hconf]
    norm_num
  · simp
  · simp

/-! ### Shapes of the four rules and the confidence aggregation (claim C2) -/

/-- Rule 1 either raises, abstains, or rejects with confidence 0.95. -/
theorem rule1_shape (investor asset : Dict) :
    _rule_exclude_industry investor asset = .error () ∨
    _rule_exclude_industry investor asset = .ok none ∨
    ∃ n, _rule_exclude_industry investor asset = .ok (some n) ∧
      n.outcome = "reject" ∧ n.confidence = 95/100 := by
  simp only [_rule_exclude_industry]
  repeat' split
  all_goals first
    | exact Or.inl rfl
    | exact Or.inr (Or.inl rfl)
    | exact Or.inr (Or.inr ⟨_, rfl, rfl, rfl⟩)

/-- Rule 2 either raises, abstains, or rejects with confidence 0.9. -/
theorem rule2_shape (investor asset : Dict) :
    _rule_exclude_by_carbon investor asset = .error () ∨
    _rule_exclude_by_carbon investor asset = .ok none ∨
    ∃ n, _rule_exclude_by_carbon investor asset = .ok (some n) ∧
      n.outcome = "reject" ∧ n.confidence = 9/10 := by
  simp only [_rule_exclude_by_carbon]
  repeat' split
  all_goals first
    | exact Or.inl rfl
    | exact Or.inr (Or.inl rfl)
    | exact Or.inr (Or.inr ⟨_, rfl, rfl, rfl⟩)

/-- Rule 3 never raises: it abstains or deprioritizes with confidence 0.7. -/
theorem rule3_shape (investor asset : Dict) :
    _rule_recent_large_drop investor asset = .ok none ∨
    ∃ n, _rule_recent_large_drop investor asset = .ok (some n) ∧
      n.outcome = "deprioritize" ∧ n.confidence = 7/10 := by
  simp only [_rule_recent_large_drop]
  repeat' split
  all_goals first
    | exact Or.inl rfl
    | exact Or.inr ⟨_, rfl, rfl, rfl⟩

/-- Rule 4 raises, abstains, accepts with confidence 0.8, or deprioritizes
with confidence 0.6. -/
theorem rule4_shape (investor asset : Dict) :
    _rule_return_and_risk investor asset = .error () ∨
    _rule_return_and_risk investor asset = .ok none ∨
    (∃ n, _rule_return_and_risk investor asset = .ok (some n) ∧
      n.outcome = "accept" ∧ n.confidence = 8/10) ∨
    ∃ n, _rule_return_and_risk investor asset = .ok (some n) ∧
      n.outcome = "deprioritize" ∧ n.confidence = 6/10 := by
  simp only [_rule_return_and_risk]
  repeat' split
  all_goals first
    | exact Or.inl rfl
    | exact Or.inr (Or.inl rfl)
    | exact Or.inr (Or.inr (Or.inl ⟨_, rfl, rfl, rfl⟩))
    | exact Or.inr (Or.inr (Or.inr ⟨_, rfl, rfl, rfl⟩))

set_option maxHeartbeats 20000000 in
/-- C2: in the aggregation of `evaluate_asset`, whenever the reason tree
holds both a deprioritize node and an accept node (the accept then follows
the deprioritize, since tree order is rule order), the final confidence is
the maximum confidence among accept nodes alone — earlier deprioritize
confidences do not survive into it; and when a reject node fired, the final
confidence is exactly that node's confidence. -/
theorem claim_C2 (investor asset : Dict) :
    ((∃ nd ∈ (evaluate_asset investor asset).reason_tree, nd.outcome = "deprioritize") →
      (∃ na ∈ (evaluate_asset investor asset).reason_tree, na.outcome = "accept") →
      (evaluate_asset investor asset).confidence =
        acceptMax (evaluate_asset investor asset).reason_tree) ∧
    (∀ n ∈ (evaluate_asset investor asset).reason_tree, n.outcome = "reject" →
      (evaluate_asset investor asset).confidence = n.confidence) := by
  have he : evaluate_asset investor asset = evaluateResults (symbolOf asset)
      [_rule_exclude_industry investor asset, _rule_exclude_by_carbon investor asset,
       _rule_recent_large_drop investor asset, _rule_return_and_risk investor asset] := rfl
  rcases rule1_shape investor asset with h1 | h1 | ⟨n1, h1, ho1, hc1⟩ <;>
    rcases rule2_shape investor asset with h2 | h2 | ⟨n2, h2, ho2, hc2⟩ <;>
      rcases rule3_shape investor asset with h3 | ⟨n3, h3, ho3, hc3⟩ <;>
        rcases rule4_shape investor asset with h4 | h4 | ⟨n4, h4, ho4, hc4⟩ | ⟨n4, h4, ho4, hc4⟩ <;>
          rw [he, h1, h2, h3, h4] <;>
          clear he h1 h2 h3 h4 <;>
          simp_all [evaluateResults, foldRules, acceptMax, default_deprioritize_node] <;>
          norm_num [max_def]

/-- C2 witness: with `percent_change = -6` and `expected_return = 0.1` under
the default medium thresholds, the drop rule deprioritizes (0.7) and the
return rule then accepts (0.8), so both hypotheses of the first part hold;
with an excluded-industry hit, a reject node fires for the second part.  The
claim theorem is applied at both inputs. -/
theorem claim_C2_witness :
    ((∃ nd ∈ (evaluate_asset []
        [("symbol", Val.str "A"), ("percent_change", Val.num (-6)),
         ("expected_return", Val.num (1/10))]).reason_tree,
        nd.outcome = "deprioritize") ∧
      (∃ na ∈ (evaluate_asset []
        [("symbol", Val.str "A"), ("percent_change", Val.num (-6)),
         ("expected_return", Val.num (1/10))]).reason_tree,
        na.outcome = "accept") ∧
      (evaluate_asset []
        [("symbol", Val.str "A"), ("percent_change", Val.num (-6)),
         ("expected_return", Val.num (1/10))]).confidence =
        acceptMax (evaluate_asset []
          [("symbol", Val.str "A"), ("percent_change", Val.num (-6)),
           ("expected_return", Val.num (1/10))]).reason_tree) ∧
    (∃ n ∈ (evaluate_asset [("excluded_industries", Val.list [Val.str "tobacco"])]
        [("sector", Val.str "tobacco")]).reason_tree,
      n.outcome = "reject" ∧
      (evaluate_asset [("excluded_industries", Val.list [Val.str "tobacco"])]
        [("sector", Val.str "tobacco")]).confidence = n.confidence) := by
  have h1 : _rule_exclude_industry []
      [("symbol", Val.str "A"), ("percent_change", Val.num (-6)),
       ("expected_return", Val.num (1/10))] = .ok none := rfl
  have h2 : _rule_exclude_by_carbon []
      [("symbol", Val.str "A"), ("percent_change", Val.num (-6)),
       ("expected_return", Val.num (1/10))] = .ok none := rfl
  have h3step : _rule_recent_large_drop []
      [("symbol", Val.str "A"), ("percent_change", Val.num (-6)),
       ("expected_return", Val.num (1/10))] =
      (if (-6 : ℚ) ≤ -5 then
        .ok (some
          { rule := "recent_large_drop", outcome := "deprioritize",
            evidence := .dict [("percent_change", Val.num (-6))],
            note := "Asset dropped more than 5% recently", confidence := 7/10 })
      else .ok none) := rfl
  have h3 : _rule_recent_large_drop []
      [("symbol", Val.str "A"), ("percent_change", Val.num (-6)),
       ("expected_return", Val.num (1/10))] =
      .ok (some
        { rule := "recent_large_drop", outcome := "deprioritize",
          evidence := .dict [("percent_change", Val.num (-6))],
          note := "Asset dropped more than 5% recently", confidence := 7/10 }) := by
    rw [h3step, if_pos (by norm_num : (-6 : ℚ) ≤ -5)]
  have h4step : _rule_return_and_risk []
      [("symbol", Val.str "A"), ("percent_change", Val.num (-6)),
       ("expected_return", Val.num (1/10))] =
      (if (6/100 : ℚ) ≤ 1/10 ∧ true = true then
        .ok (some
          { rule := "accept_by_return_and_risk", outcome := "accept",
            evidence := .dict [("expected_return", Val.num (1/10)),
              ("volatility", Val.null), ("thresholds", thresholdsVal mediumThresholds)],
            note := "Meets expected return and volatility thresholds",
            confidence := 8/10 })
      else
        .ok (some
          { rule := "deprioritize_by_return_or_risk", outcome := "deprioritize",
            evidence := .dict [("expected_return", Val.num (1/10)),
              ("volatility", Val.null), ("thresholds", thresholdsVal mediumThresholds)],
            note := "Fails return / volatility requirements",
            confidence := 6/10 })) := rfl
  have h4 : _rule_return_and_risk []
      [("symbol", Val.str "A"), ("percent_change", Val.num (-6)),
       ("expected_return", Val.num (1/10))] =
      .ok (some
        { rule := "accept_by_return_and_risk", outcome := "accept",
          evidence := .dict [("expected_return", Val.num (1/10)),
            ("volatility", Val.null), ("thresholds", thresholdsVal mediumThresholds)],
          note := "Meets expected return and volatility thresholds",
          confidence := 8/10 }) := by
    rw [h4step, if_pos ⟨by norm_num, rfl⟩]
  have hA : evaluate_asset []
      [("symbol", Val.str "A"), ("percent_change", Val.num (-6)),
       ("expected_return", Val.num (1/10))] =
      evaluateResults (symbolOf
        [("symbol", Val.str "A"), ("percent_change", Val.num (-6)),
         ("expected_return", Val.num (1/10))])
        [_rule_exclude_industry []
          [("symbol", Val.str "A"), ("percent_change", Val.num (-6)),
           ("expected_return", Val.num (1/10))],
         _rule_exclude_by_carbon []
          [("symbol", Val.str "A"), ("percent_change", Val.num (-6)),
           ("expected_return", Val.num (1/10))],
         _rule_recent_large_drop []
          [("symbol", Val.str "A"), ("percent_change", Val.num (-6)),
           ("expected_return", Val.num (1/10))],
         _rule_return_and_risk []
          [("symbol", Val.str "A"), ("percent_change", Val.num (-6)),
           ("expected_return", Val.num (1/10))]] := rfl
  have htreeA : (evaluate_asset []
      [("symbol", Val.str "A"), ("percent_change", Val.num (-6)),
       ("expected_return", Val.num (1/10))]).reason_tree =
      [{ rule := "recent_large_drop", outcome := "deprioritize",
         evidence := .dict [("percent_change", Val.num (-6))],
         note := "Asset dropped more than 5% recently", confidence := 7/10 },
       { rule := "accept_by_return_and_risk", outcome := "accept",
         evidence := .dict [("expected_return", Val.num (1/10)),
           ("volatility", Val.null), ("thresholds", thresholdsVal mediumThresholds)],
         note := "Meets expected return and volatility thresholds",
         confidence := 8/10 }] := by
    rw [hA, h1, h2, h3, h4]
    simp [evaluateResults, foldRules]
  have hyp1 : ∃ nd ∈ (evaluate_asset []
      [("symbol", Val.str "A"), ("percent_change", Val.num (-6)),
       ("expected_return", Val.num (1/10))]).reason_tree,
      nd.outcome = "deprioritize" := by
    rw [htreeA]
    exact ⟨_, List.mem_cons_self _ _, rfl⟩
  have hyp2 : ∃ na ∈ (evaluate_asset []
      [("symbol", Val.str "A"), ("percent_change", Val.num (-6)),
       ("expected_return", Val.num (1/10))]).reason_tree,
      na.outcome = "accept" := by
    rw [htreeA]
    exact ⟨_, List.mem_cons_of_mem _ (List.mem_cons_self _ _), rfl⟩
  have htreeB : (evaluate_asset [("excluded_industries", Val.list [Val.str "tobacco"])]
      [("sector", Val.str "tobacco")]).reason_tree =
      [{ rule := "exclude_by_industry", outcome := "reject",
         evidence := .dict [("sector", Val.str "tobacco"),
           ("excluded", Val.list [Val.str "tobacco"])],
         note := "Asset sector \x27tobacco\x27 matches investor excluded industries",
         confidence := 95/100 }] := rfl
  have hmemB : ReasonNode.mk "exclude_by_industry" "reject"
      (.dict [("sector", Val.str "tobacco"), ("excluded", Val.list [Val.str "tobacco"])])
      "Asset sector \x27tobacco\x27 matches investor excluded industries" (95/100) ∈
      (evaluate_asset [("excluded_industries", Val.list [Val.str "tobacco"])]
        [("sector", Val.str "tobacco")]).reason_tree := by
    rw [htreeB]; exact List.mem_cons_self _ _
  exact ⟨⟨hyp1, hyp2, (claim_C2 _ _).1 hyp1 hyp2⟩,
    ⟨_, hmemB, rfl, (claim_C2 _ _).2 _ hmemB rfl⟩⟩

/-! ### Falsy-value fallbacks (claim C10) -/

/-- C10: a present-but-zero field is treated as absent by the `or` fallback
chains: with `carbon_emissions = 0` the carbon rule tests `carbon_score`
instead (and can reject on it), and with `volatility = 0` the return-and-risk
volatility chain falls through to `beta` and then `stddev`. -/
theorem claim_C10 :
    (∀ (investor asset : Dict) (mc cs : ℚ),
      pyGet investor "max_carbon_score" = Val.num mc →
      pyGet asset "carbon_emissions" = Val.num 0 →
      pyGet asset "carbon_score" = Val.num cs →
      mc < cs →
      ∃ n, _rule_exclude_by_carbon investor asset = .ok (some n) ∧
        n.outcome = "reject" ∧
        n.evidence = .dict [("carbon", Val.num cs), ("max_allowed", Val.num mc)]) ∧
    (∀ asset : Dict, pyGet asset "volatility" = Val.num 0 →
      volatilityOf asset = pyOr (pyGet asset "beta") (pyGet asset "stddev")) := by
  constructor
  · intro investor asset mc cs hmc hce hcs hlt
    have hor : pyOr (pyGet asset "carbon_emissions") (pyGet asset "carbon_score") =
        Val.num cs := by
      rw [hce, hcs]; simp [pyOr, truthy]
    refine ⟨ReasonNode.mk "exclude_by_carbon" "reject"
      (.dict [("carbon", Val.num cs), ("max_allowed", Val.num mc)])
      ("Asset carbon " ++ qRepr cs ++ " > investor max " ++ qRepr mc) (9/10), ?_, rfl, rfl⟩
    simp only [_rule_exclude_by_carbon, hmc, hor, pyFloat]
    rw [if_pos hlt]
  · intro asset h
    rw [volatilityOf, h]
    simp [pyOr, truthy]

/-- C10 witness: `carbon_emissions = 0` with `carbon_score = 10` against a
max of 5 rejects on the carbon score, and `volatility = 0` falls through to
the beta/stddev chain; both parts of the claim applied at this input. -/
theorem claim_C10_witness :
    (pyGet [("max_carbon_score", Val.num 5)] "max_carbon_score" = Val.num 5) ∧
    (pyGet [("carbon_emissions", Val.num 0), ("carbon_score", Val.num 10),
        ("volatility", Val.num 0), ("beta", Val.num 2)] "carbon_emissions" = Val.num 0) ∧
    (pyGet [("carbon_emissions", Val.num 0), ("carbon_score", Val.num 10),
        ("volatility", Val.num 0), ("beta", Val.num 2)] "carbon_score" = Val.num 10) ∧
    ((5 : ℚ) < 10) ∧
    (∃ n, _rule_exclude_by_carbon [("max_carbon_score", Val.num 5)]
        [("carbon_emissions", Val.num 0), ("carbon_score", Val.num 10),
         ("volatility", Val.num 0), ("beta", Val.num 2)] = .ok (some n) ∧
      n.outcome = "reject" ∧
      n.evidence = .dict [("carbon", Val.num 10), ("max_allowed", Val.num 5)]) ∧
    volatilityOf [("carbon_emissions", Val.num 0), ("carbon_score", Val.num 10),
        ("volatility", Val.num 0), ("beta", Val.num 2)] =
      pyOr (pyGet [("carbon_emissions", Val.num 0), ("carbon_score", Val.num 10),
          ("volatility", Val.num 0), ("beta", Val.num 2)] "beta")
        (pyGet [("carbon_emissions", Val.num 0), ("carbon_score", Val.num 10),
          ("volatility", Val.num 0), ("beta", Val.num 2)] "stddev") :=
  ⟨rfl, rfl, rfl, by norm_num,
   claim_C10.1 [("max_carbon_score", Val.num 5)]
     [("carbon_emissions", Val.num 0), ("carbon_score", Val.num 10),
      ("volatility", Val.num 0), ("beta", Val.num 2)] 5 10 rfl rfl rfl (by norm_num),
   claim_C10.2 [("carbon_emissions", Val.num 0), ("carbon_score", Val.num 10),
      ("volatility", Val.num 0), ("beta", Val.num 2)] rfl⟩

/-! ### Canonical serialization and hashing (claims C8 and C9) -/

/-- Head characterization of the code-point comparison. -/
theorem charListLe_cons_iff (x y : Char) (xs ys : List Char) :
    charListLe (x :: xs) (y :: ys) = true ↔
      x.toNat < y.toNat ∨ (x.toNat = y.toNat ∧ charListLe xs ys = true) := by
  simp only [charListLe]
  rcases Nat.lt_trichotomy x.toNat y.toNat with h | h | h
  · simp [h, Nat.ne_of_lt h]
  · simp [h, lt_irrefl]
  · simp [Nat.lt_asymm h, h, ne_of_gt h]

/-- The comparison is total. -/
theorem charListLe_total (a : List Char) :
    ∀ b, charListLe a b = true ∨ charListLe b a = true := by
  induction a with
  | nil => intro b; exact Or.inl rfl
  | cons x xs ih =>
    intro b
    cases b with
    | nil => exact Or.inr rfl
    | cons y ys =>
      rcases Nat.lt_trichotomy x.toNat y.toNat with h | h | h
      · exact Or.inl ((charListLe_cons_iff _ _ _ _).mpr (Or.inl h))
      · rcases ih ys with h2 | h2
        · exact Or.inl ((charListLe_cons_iff _ _ _ _).mpr (Or.inr ⟨h, h2⟩))
        · exact Or.inr ((charListLe_cons_iff _ _ _ _).mpr (Or.inr ⟨h.symm, h2⟩))
      · exact Or.inr ((charListLe_cons_iff _ _ _ _).mpr (Or.inl h))

/-- The comparison is transitive. -/
theorem charListLe_trans : ∀ a b c : List Char, charListLe a b = true →
    charListLe b c = true → charListLe a c = true
  | [], _, _, _, _ => rfl
  | _ :: _, [], _, hab, _ => by simp [charListLe] at hab
  | _ :: _, _ :: _, [], _, hbc => by simp [charListLe] at hbc
  | x :: xs, y :: ys, z :: zs, hab, hbc => by
    rw [charListLe_cons_iff] at hab hbc ⊢
    rcases hab with h1 | ⟨h1, h1t⟩ <;> rcases hbc with h2 | ⟨h2, h2t⟩
    · exact Or.inl (h1.trans h2)
    · exact Or.inl (h2 ▸ h1)
    · exact Or.inl (h1 ▸ h2)
    · exact Or.inr ⟨h1.trans h2, charListLe_trans xs ys zs h1t h2t⟩

/-- The comparison is antisymmetric. -/
theorem charListLe_antisymm : ∀ a b : List Char, charListLe a b = true →
    charListLe b a = true → a = b
  | [], [], _, _ => rfl
  | [], _ :: _, _, hba => by simp [charListLe] at hba
  | _ :: _, [], hab, _ => by simp [charListLe] at hab
  | x :: xs, y :: ys, hab, hba => by
    rw [charListLe_cons_iff] at hab hba
    rcases hab with h1 | ⟨h1, h1t⟩ <;> rcases hba with h2 | ⟨h2, h2t⟩
    · omega
    · omega
    · omega
    · have hchar : x = y := by
        unfold Char.toNat at h1
        exact Char.eq_of_val_eq (UInt32.eq_of_val_eq (Fin.eq_of_val_eq h1))
      rw [hchar, charListLe_antisymm xs ys h1t h2t]

/-- String antisymmetry for the key comparison. -/
theorem strLe_antisymm (a b : String) (hab : strLe a b = true)
    (hba : strLe b a = true) : a = b := by
  cases a with
  | mk da =>
    cases b with
    | mk db => exact congrArg String.mk (charListLe_antisymm da db hab hba)

/-- Sorting rendered entries by key is canonical: permuted entry lists with
duplicate-free keys sort identically. -/
theorem sortByKey_canonical (l1 l2 : List (String × String)) (hp : l1.Perm l2)
    (hnd : (l1.map Prod.fst).Nodup) : sortByKey l1 = sortByKey l2 := by
  haveI : IsAntisymm (String × String)
      (fun a b => strLe a.1 b.1 = true ∧ a.1 ≠ b.1) :=
    ⟨by rintro a b ⟨hab, hne⟩ ⟨hba, _⟩
        exact absurd (strLe_antisymm _ _ hab hba) hne⟩
  have hs1 := List.mergeSort_perm l1 (fun a b => strLe a.1 b.1)
  have hs2 := List.mergeSort_perm l2 (fun a b => strLe a.1 b.1)
  have hperm : (sortByKey l1).Perm (sortByKey l2) := (hs1.trans hp).trans hs2.symm
  have htrans : ∀ a b c : String × String, strLe a.1 b.1 = true →
      strLe b.1 c.1 = true → strLe a.1 c.1 = true :=
    fun a b c hab hbc => charListLe_trans _ _ _ hab hbc
  have htotal : ∀ a b : String × String,
      (strLe a.1 b.1 || strLe b.1 a.1) = true := by
    intro a b
    rcases charListLe_total a.1.data b.1.data with h | h <;> simp [strLe, h]
  have hsorted1 := List.sorted_mergeSort htrans htotal l1
  have hsorted2 := List.sorted_mergeSort htrans htotal l2
  have hnd1 : ((sortByKey l1).map Prod.fst).Nodup :=
    ((hs1.map Prod.fst).symm).nodup hnd
  have hnd2 : ((sortByKey l2).map Prod.fst).Nodup :=
    ((hs2.map Prod.fst).symm).nodup ((hp.map Prod.fst).nodup hnd)
  have hstrict1 : List.Pairwise
      (fun a b : String × String => strLe a.1 b.1 = true ∧ a.1 ≠ b.1) (sortByKey l1) :=
    hsorted1.and (List.pairwise_map.mp hnd1)
  have hstrict2 : List.Pairwise
      (fun a b : String × String => strLe a.1 b.1 = true ∧ a.1 ≠ b.1) (sortByKey l2) :=
    hsorted2.and (List.pairwise_map.mp hnd2)
  exact List.eq_of_perm_of_sorted hperm hstrict1 hstrict2

/-- Rendering entries acts entrywise. -/
theorem dumpsEntries_eq_map (l : List (String × Val)) :
    dumpsEntries l = l.map (fun kv => (kv.1, jsonQuote kv.1 ++ ": " ++ dumps kv.2)) := by
  induction l with
  | nil => rfl
  | cons kv rest ih =>
    cases kv
    simp [dumpsEntries, ih]

/-- Rendering entries preserves keys. -/
theorem dumpsEntries_keys (l : List (String × Val)) :
    (dumpsEntries l).map Prod.fst = l.map Prod.fst := by
  rw [dumpsEntries_eq_map, List.map_map]
  rfl

/-- The dict serialization of `dumps` is invariant under permutation of
entries with duplicate-free keys. -/
theorem dumps_dict_congr (l1 l2 : List (String × Val)) (hp : l1.Perm l2)
    (hnd : (l1.map Prod.fst).Nodup) :
    dumps (Val.dict l1) = dumps (Val.dict l2) := by
  have hpe : (dumpsEntries l1).Perm (dumpsEntries l2) := by
    rw [dumpsEntries_eq_map, dumpsEntries_eq_map]
    exact hp.map _
  have hnde : ((dumpsEntries l1).map Prod.fst).Nodup := by
    rw [dumpsEntries_keys]; exact hnd
  have hsort := sortByKey_canonical _ _ hpe hnde
  rw [dumps, dumps, hsort]

/-- Every rendered digest word is exactly 8 hex characters. -/
theorem wordHex_length (w : ℕ) : (wordHex w).length = 8 := by
  simp [wordHex, String.length]

/-- Every digest of `sha256Hex` is exactly 64 hex characters. -/
theorem sha256Hex_length (m : List ℕ) : (sha256Hex m).length = 64 := by
  simp [sha256Hex, String.length_append, wordHex_length]

/-- C9: `sha256_of_obj` is deterministic and key-order independent: two
mappings equal as sets of key-value pairs (a permutation, with duplicate-free
keys) hash to the identical digest, every digest is a 64-character hex
string, and hashing the same mapping twice trivially yields the same
digest. -/
theorem claim_C9 (l1 l2 : List (String × Val)) (hp : l1.Perm l2)
    (hnd : (l1.map Prod.fst).Nodup) :
    sha256_of_obj (Val.dict l1) = sha256_of_obj (Val.dict l2) ∧
    (sha256_of_obj (Val.dict l1)).length = 64 ∧
    sha256_of_obj (Val.dict l1) = sha256_of_obj (Val.dict l1) := by
  refine ⟨?_, ?_, rfl⟩
  · unfold sha256_of_obj
    rw [dumps_dict_congr l1 l2 hp hnd]
  · exact sha256Hex_length _

/-- C9 witness: a two-entry mapping and its reversal hash identically. -/
theorem claim_C9_witness :
    ([("a", Val.num 1), ("b", Val.str "x")].Perm
      [("b", Val.str "x"), ("a", Val.num 1)]) ∧
    (([("a", Val.num 1), ("b", Val.str "x")].map Prod.fst).Nodup) ∧
    (sha256_of_obj (Val.dict [("a", Val.num 1), ("b", Val.str "x")]) =
        sha256_of_obj (Val.dict [("b", Val.str "x"), ("a", Val.num 1)]) ∧
      (sha256_of_obj (Val.dict [("a", Val.num 1), ("b", Val.str "x")])).length = 64 ∧
      sha256_of_obj (Val.dict [("a", Val.num 1), ("b", Val.str "x")]) =
        sha256_of_obj (Val.dict [("a", Val.num 1), ("b", Val.str "x")])) :=
  ⟨List.Perm.swap _ _ _, by decide,
   claim_C9 _ _ (List.Perm.swap _ _ _) (by decide)⟩

/-- C8: `record_provenance_blob` is total (never raises past its boundary);
for every snapshot and timestamp the receipt is exactly the four fields
symbol, hash, path and timestamp — the hash already computed from the
snapshot, the full raw snapshot not among them — and the receipt is
identical whether the file write succeeds or fails (on failure nothing is
persisted but the caller still gets the full receipt). -/
theorem claim_C8 (ts : ℕ) (writeOk : Bool) (raw : Dict) (tag : Option Val) :
    (record_provenance_blob ts writeOk raw tag).1 =
      ⟨pyOr (pyGet raw "symbol") (pyGet raw "id"),
       sha256_of_obj (.dict raw),
       PROVENANCE_DIR ++ "/" ++ pyStr (pyOr (pyGet raw "symbol") (pyGet raw "id")) ++
         "_" ++ toString ts ++ ".json",
       ts⟩ ∧
    (record_provenance_blob ts false raw tag).1 =
      (record_provenance_blob ts true raw tag).1 ∧
    (record_provenance_blob ts false raw tag).2 = none ∧
    (record_provenance_blob ts writeOk raw tag).1.hash = sha256_of_obj (.dict raw) :=
  ⟨rfl, rfl, rfl, rfl⟩

end EAIN
